import Mathlib

/-!
Shallow embedding of `src/modules/proc_module_arch.c`, a Linux kernel module
exposing a read-only `/proc/student_info` file.

The C source keeps its state in file-scope globals (`student_name`, `group`,
`subgroup`, `read_count`, `load_time`); we gather them in a `Globals` record.
The per-call inputs of `proc_read` — current `jiffies`, the kernel `HZ`
constant, the caller cursor `*ppos` and the requested byte count — are
explicit arguments.  `copy_to_user` success depends on the caller's address
space, which is outside the program; it is abstracted as a boolean parameter
`copyOk`.  `snprintf` is modelled with its C semantics: the buffer receives at
most `MAX_SIZE - 1` content bytes (NUL-terminated), while the *returned*
length `len` is the byte length the full formatted text would have had.
Machine integers: `read_count` is a C `int` incremented once per fresh read —
no claim approaches its range, so it is embedded as `Int` without wrap;
`jiffies` and `load_time` are C `unsigned long` (64-bit), and their
subtraction wraps modulo `2 ^ 64` (`usub64`).
-/

set_option maxRecDepth 100000
set_option maxHeartbeats 2000000

namespace ProcModule

/-- Constant from `#define MAX_SIZE 1024` — size of the stack buffer `buf`. -/
def MAX_SIZE : Nat := 1024

/-- Linux `EFAULT` errno; `proc_read` returns `-EFAULT` on copy failure. -/
def EFAULT : Int := 14

/-- Linux `ENOMEM` errno; `proc_module_init` returns `-ENOMEM` when
`proc_create` fails. -/
def ENOMEM : Int := 12

/-- Modulus `2 ^ 64` of C `unsigned long` arithmetic on the target. -/
def U64 : Nat := 2 ^ 64

/-- C `unsigned long` subtraction `a - b`, i.e. subtraction modulo `2 ^ 64`.
For representable values (`a, b < U64`) this equals `(a + U64 - b) % U64`. -/
def usub64 (a b : Nat) : Nat := (a % U64 + (U64 - b % U64)) % U64

/-- File-scope mutable globals of the module: the three module parameters
(`student_name`, `group`, `subgroup`, each externally writable through
`module_param` mode 0644), the access counter `read_count : int` and the
activation timestamp `load_time : unsigned long`. -/
structure Globals where
  student_name : String
  group : Int
  subgroup : Int
  read_count : Int
  load_time : Nat
  deriving Repr, DecidableEq

/-- Initial values of the globals: `read_count = 0`, `load_time = 0`, and the
default module parameters from the source. -/
def defaultGlobals : Globals :=
  { student_name := "Kuharev Kirill", group := 9, subgroup := 2,
    read_count := 0, load_time := 0 }

/-- Text that `snprintf` formats (before any truncation), built from the
format string of `proc_read` with the argument list `student_name, group,
subgroup, load_time, uptime_seconds, read_count, jiffies`; `%s`, `%d`, `%lu`
become `String`, `Int.repr`, `Nat.repr`. -/
def renderReport (g : Globals) (readCountNow : Int) (uptime_seconds jiffiesNow : Nat) : String :=
  "╔═════════════════════════" ++
  "═════════════════════════╗\n║         Student Information                      ║\n╠═════════════════════════" ++
  "═════════════════════════╣\n  Name:              " ++
  g.student_name ++
  "\n  Group:             " ++
  g.group.repr ++
  "\n  Subgroup:          " ++
  g.subgroup.repr ++
  "\n  Module loaded at:  " ++
  g.load_time.repr ++
  " jiffies\n  Module uptime:     " ++
  uptime_seconds.repr ++
  " seconds\n  Read count:        " ++
  readCountNow.repr ++
  "\n  Current jiffies:   " ++
  jiffiesNow.repr ++
  "\n╚═════════════════════════" ++
  "═════════════════════════╝\n"

/-- Outcome of one `proc_read` call: the `ssize_t` return value, the globals
after the call, the cursor `*ppos` after the call, the rendered report (`""`
when no rendering happened, i.e. on the EOF path), the number of bytes
`copy_to_user` was asked to read out of `buf` (`0` when no copy was
attempted), and which `printk` lines were emitted (`logRead` is the per-read
`KERN_INFO` line, `logCopyError` the `KERN_ERR` line). -/
structure ReadResult where
  ret : Int
  g : Globals
  ppos : Nat
  report : String
  copyLen : Nat
  logRead : Bool
  logCopyError : Bool
  deriving Repr, DecidableEq

/-- Function `proc_read(file, ubuf, count, ppos)` from the source, line by
line: if `*ppos > 0` return `0` (EOF) with no side effect; otherwise
increment `read_count`, compute `uptime_jiffies = jiffies - load_time` and
`uptime_seconds = uptime_jiffies / HZ`, `snprintf` the report (whose *return
value* `len` is the untruncated byte length), then
`copy_to_user(ubuf, buf, len)` — on failure log an error and return
`-EFAULT`; on success set `*ppos = len`, log the read, and return `len`.
Note the C function never inspects its `count` argument. -/
def proc_read (g : Globals) (jiffiesNow HZ : Nat) (ppos count : Nat)
    (copyOk : Bool) : ReadResult :=
  if ppos > 0 then
    { ret := 0, g := g, ppos := ppos, report := "", copyLen := 0,
      logRead := false, logCopyError := false }
  else
    let g' : Globals := { g with read_count := g.read_count + 1 }
    let uptime_jiffies := usub64 jiffiesNow g.load_time
    let uptime_seconds := uptime_jiffies / HZ
    let report := renderReport g g'.read_count uptime_seconds jiffiesNow
    let len := report.utf8ByteSize
    if copyOk then
      { ret := (len : Int), g := g', ppos := len, report := report,
        copyLen := len, logRead := true, logCopyError := false }
    else
      { ret := -EFAULT, g := g', ppos := ppos, report := report,
        copyLen := len, logRead := false, logCopyError := true }

/-- Function `proc_module_init` restricted to its state effect: it captures
`load_time = jiffies`, then attempts `proc_create` (success abstracted as
`createOk`); on failure it returns `-ENOMEM`, on success `0`. -/
def proc_module_init (g : Globals) (jiffiesNow : Nat) (createOk : Bool) :
    Int × Globals :=
  let g' : Globals := { g with load_time := jiffiesNow }
  if createOk then (0, g') else (-ENOMEM, g')

/-- Descriptor of one read call: current jiffies, HZ, cursor, count, copy
success. -/
structure CallSpec where
  jiffiesNow : Nat
  hz : Nat
  ppos : Nat
  count : Nat
  copyOk : Bool
  deriving Repr, DecidableEq

/-- Run a sequence of `proc_read` calls, threading the globals. -/
def runReads (g : Globals) (calls : List CallSpec) : Globals :=
  calls.foldl (fun g c => (proc_read g c.jiffiesNow c.hz c.ppos c.count c.copyOk).g) g

/-- Adversarial module parameter: a 400-character name (set at load with
`insmod proc_module.ko student_name=AAA...`), long enough that the formatted
report exceeds the 1024-byte buffer. -/
def longName : String := String.mk (List.replicate 400 'A')

/-- Globals after loading the module with the 400-character `student_name`. -/
def overflowGlobals : Globals := { defaultGlobals with student_name := longName }

/-- Program counter of one in-flight `read_count++`.  The C increment is a
plain, non-atomic read-modify-write on the shared global, so at machine level
it decomposes into a load of the current value followed by a store of the
incremented value; `loaded v` records the value the load observed. -/
inductive IncPC where
  | ready
  | loaded (v : Int)
  | done
  deriving Repr, DecidableEq

/-- One machine step of the plain `read_count++` of a single session: from
`ready` it loads the shared counter, from `loaded v` it stores `v + 1`. -/
def incStep (rc : Int) : IncPC → Int × IncPC
  | .ready => (rc, .loaded rc)
  | .loaded v => (v + 1, .done)
  | .done => (rc, .done)

/-- Shared counter plus the program counters of two concurrent first-read
sessions, each in the middle of its `read_count++`. -/
structure TwoSessions where
  rc : Int
  t1 : IncPC
  t2 : IncPC
  deriving Repr, DecidableEq

/-- Run an interleaving of the two sessions' increments: each schedule entry
picks which session performs its next machine step (`false` = session 1,
`true` = session 2). -/
def runSched (s : TwoSessions) : List Bool → TwoSessions
  | [] => s
  | b :: rest =>
      if b then
        let p := incStep s.rc s.t2
        runSched { rc := p.1, t1 := s.t1, t2 := p.2 } rest
      else
        let p := incStep s.rc s.t1
        runSched { rc := p.1, t1 := p.2, t2 := s.t2 } rest

end ProcModule

namespace ProcModule

/-- Byte length of a concatenation is the sum of the byte lengths. -/
theorem strLen_append (a b : String) :
    (a ++ b).utf8ByteSize = a.utf8ByteSize + b.utf8ByteSize := by
  cases a with | mk l1 => cases b with | mk l2 =>
  show (String.mk (l1 ++ l2)).utf8ByteSize = _
  simp

/-- Every rendered report is non-empty (its fixed text alone is non-empty). -/
theorem renderReport_pos (g : Globals) (rc : Int) (us jn : Nat) :
    0 < (renderReport g rc us jn).utf8ByteSize := by
  have h : 0 < ("\n╚═════════════════════════" : String).utf8ByteSize := by
    decide
  simp only [renderReport, strLen_append]
  omega

/-- Unfolding of `proc_read` on the fresh-session success path. -/
theorem proc_read_fresh_ok (g : Globals) (j hz c : Nat) :
    proc_read g j hz 0 c true =
      { ret := ((renderReport g (g.read_count + 1) (usub64 j g.load_time / hz) j).utf8ByteSize : Int),
        g := { g with read_count := g.read_count + 1 },
        ppos := (renderReport g (g.read_count + 1) (usub64 j g.load_time / hz) j).utf8ByteSize,
        report := renderReport g (g.read_count + 1) (usub64 j g.load_time / hz) j,
        copyLen := (renderReport g (g.read_count + 1) (usub64 j g.load_time / hz) j).utf8ByteSize,
        logRead := true, logCopyError := false } := rfl

/-- Unfolding of `proc_read` on the fresh-session copy-failure path. -/
theorem proc_read_fresh_fail (g : Globals) (j hz c : Nat) :
    proc_read g j hz 0 c false =
      { ret := -EFAULT,
        g := { g with read_count := g.read_count + 1 },
        ppos := 0,
        report := renderReport g (g.read_count + 1) (usub64 j g.load_time / hz) j,
        copyLen := (renderReport g (g.read_count + 1) (usub64 j g.load_time / hz) j).utf8ByteSize,
        logRead := false, logCopyError := true } := rfl

/-- Unfolding of `proc_read` on the EOF path (`*ppos > 0`). -/
theorem proc_read_eof (g : Globals) (j hz ppos c : Nat) (cOk : Bool)
    (hp : 0 < ppos) :
    proc_read g j hz ppos c cOk =
      { ret := 0, g := g, ppos := ppos, report := "", copyLen := 0,
        logRead := false, logCopyError := false } := by
  unfold proc_read
  rw [if_pos hp]

/-- No path of `proc_read` writes `load_time`. -/
theorem proc_read_load_time (g : Globals) (j hz ppos c : Nat) (cOk : Bool) :
    (proc_read g j hz ppos c cOk).g.load_time = g.load_time := by
  unfold proc_read
  split
  · rfl
  · cases cOk <;> rfl

/-- Running any sequence of reads leaves `load_time` unchanged. -/
theorem runReads_load_time (g : Globals) (calls : List CallSpec) :
    (runReads g calls).load_time = g.load_time := by
  induction calls generalizing g with
  | nil => rfl
  | cons a t ih =>
      simp only [runReads, List.foldl_cons] at *
      rw [ih, proc_read_load_time]

/-- Subtraction modulo `2 ^ 64` agrees with true subtraction as long as the
clock has not lapped the activation time by a full 64-bit period. -/
theorem usub64_eq_sub (a b : Nat) (hba : b ≤ a) (ha : a < b + U64) :
    usub64 a b = a - b := by
  unfold usub64 U64 at *
  omega

/-- Strings of positive byte length are non-empty. -/
theorem ne_empty_of_utf8_pos (s : String) (h : 0 < s.utf8ByteSize) : s ≠ "" := by
  intro he
  rw [he] at h
  exact absurd h (by decide)

/-- C1: in one read session, the first successful call (cursor offset 0)
increments `read_count` by exactly one, returns a non-empty rendered report
whose byte count is the returned value, and advances the cursor offset to the
rendered length; every later call of the session (offset > 0) returns zero
bytes and leaves `read_count` unchanged. -/
theorem read_session_first_then_eof (g : Globals) (j hz c j2 hz2 c2 ppos : Nat)
    (cOk : Bool) (hp : 0 < ppos) :
    ((proc_read g j hz 0 c true).g.read_count = g.read_count + 1 ∧
     0 < (proc_read g j hz 0 c true).copyLen ∧
     (proc_read g j hz 0 c true).ret = ((proc_read g j hz 0 c true).copyLen : Int) ∧
     (proc_read g j hz 0 c true).report ≠ "" ∧
     (proc_read g j hz 0 c true).ppos = (proc_read g j hz 0 c true).report.utf8ByteSize) ∧
    ((proc_read g j2 hz2 ppos c2 cOk).ret = 0 ∧
     (proc_read g j2 hz2 ppos c2 cOk).g.read_count = g.read_count) := by
  constructor
  · rw [proc_read_fresh_ok]
    exact ⟨rfl, renderReport_pos g (g.read_count + 1) (usub64 j g.load_time / hz) j, rfl,
      ne_empty_of_utf8_pos _ (renderReport_pos g (g.read_count + 1) (usub64 j g.load_time / hz) j),
      rfl⟩
  · rw [proc_read_eof g j2 hz2 ppos c2 cOk hp]
    exact ⟨rfl, rfl⟩

/-- Witness for C1 at a concrete session: first call at offset 0, second call
at offset 1. -/
theorem read_session_first_then_eof_witness :
    (0 : Nat) < 1 ∧
    (((proc_read defaultGlobals 0 100 0 10 true).g.read_count = defaultGlobals.read_count + 1 ∧
      0 < (proc_read defaultGlobals 0 100 0 10 true).copyLen ∧
      (proc_read defaultGlobals 0 100 0 10 true).ret = ((proc_read defaultGlobals 0 100 0 10 true).copyLen : Int) ∧
      (proc_read defaultGlobals 0 100 0 10 true).report ≠ "" ∧
      (proc_read defaultGlobals 0 100 0 10 true).ppos = (proc_read defaultGlobals 0 100 0 10 true).report.utf8ByteSize) ∧
     ((proc_read defaultGlobals 1 100 1 10 true).ret = 0 ∧
      (proc_read defaultGlobals 1 100 1 10 true).g.read_count = defaultGlobals.read_count)) :=
  ⟨by decide, read_session_first_then_eof defaultGlobals 0 100 10 1 100 10 1 true (by decide)⟩

/-- C2: a read call with cursor offset > 0 returns the empty result (zero
bytes, no error), leaves the cursor and all globals unchanged, renders no
report, copies nothing, and emits no log line. -/
theorem eof_read_no_side_effects (g : Globals) (j hz ppos c : Nat) (cOk : Bool)
    (hp : 0 < ppos) :
    proc_read g j hz ppos c cOk =
      { ret := 0, g := g, ppos := ppos, report := "", copyLen := 0,
        logRead := false, logCopyError := false } :=
  proc_read_eof g j hz ppos c cOk hp

/-- Witness for C2 at cursor offset 5. -/
theorem eof_read_no_side_effects_witness :
    (0 : Nat) < 5 ∧
    proc_read defaultGlobals 3 100 5 10 true =
      { ret := 0, g := defaultGlobals, ppos := 5, report := "", copyLen := 0,
        logRead := false, logCopyError := false } :=
  ⟨by decide, eof_read_no_side_effects defaultGlobals 3 100 5 10 true (by decide)⟩

/-- C3 (code bug): with a 400-character `student_name` the formatted text is
1104 bytes, `snprintf` truncates `buf` to 1023 content bytes but *returns*
1104, and the code passes that untruncated length to `copy_to_user` and to
`*ppos` — so the bytes read across the boundary (1104) exceed the 1024-byte
buffer capacity and the copy reads past `buf`, contradicting the claimed
truncation-to-capacity safety. -/
theorem overflow_read_exceeds_buffer :
    (proc_read overflowGlobals 0 100 0 MAX_SIZE true).copyLen = 1104 ∧
    (proc_read overflowGlobals 0 100 0 MAX_SIZE true).ppos = 1104 ∧
    (proc_read overflowGlobals 0 100 0 MAX_SIZE true).ret = 1104 ∧
    MAX_SIZE < (proc_read overflowGlobals 0 100 0 MAX_SIZE true).copyLen := by
  refine ⟨by decide, by decide, by decide, by decide⟩

/-- Counterexample to C4: at a fresh read with requested capacity `count = 1`
the rendered length is 718 > 1, yet when the boundary copy succeeds (the
caller's mapped memory extends past its buffer) the handler returns plain
success 718 — no `BufferTooSmall` (nor any) error is signaled before or
instead of the copy. -/
theorem small_count_not_rejected :
    (proc_read defaultGlobals 0 100 0 1 true).copyLen = 718 ∧
    1 < (proc_read defaultGlobals 0 100 0 1 true).copyLen ∧
    (proc_read defaultGlobals 0 100 0 1 true).ret = 718 ∧
    0 < (proc_read defaultGlobals 0 100 0 1 true).ret := by
  refine ⟨by decide, by decide, by decide, by decide⟩

/-- C4 (amended): the handler never inspects the requested capacity — its
result is independent of `count` — so a too-small caller buffer is not
detected before the boundary copy; if the copy then faults, the error
reported is the `BoundaryCopyFault` `-EFAULT` (not a distinct
`BufferTooSmall`), and `read_count` still reflects the attempted read. -/
theorem count_never_inspected (g : Globals) (j hz ppos c1 c2 : Nat) (cOk : Bool) :
    proc_read g j hz ppos c1 cOk = proc_read g j hz ppos c2 cOk ∧
    (proc_read g j hz 0 c1 false).ret = -EFAULT ∧
    (proc_read g j hz 0 c1 false).g.read_count = g.read_count + 1 :=
  ⟨rfl, rfl, rfl⟩

/-- C5: when the boundary copy of a fresh-session read fails, the handler
returns `-EFAULT` (a negative error, aborting the call), logs the copy error,
and the `read_count` increment performed before the copy is not rolled
back. -/
theorem copy_fault_reports_efault_keeps_count (g : Globals) (j hz c : Nat) :
    (proc_read g j hz 0 c false).ret = -EFAULT ∧
    (proc_read g j hz 0 c false).ret < 0 ∧
    (proc_read g j hz 0 c false).logCopyError = true ∧
    (proc_read g j hz 0 c false).g.read_count = g.read_count + 1 := by
  refine ⟨rfl, ?_, rfl, rfl⟩
  have h : (proc_read g j hz 0 c false).ret = -EFAULT := rfl
  rw [h]
  decide

/-- C6: a fresh-session read renders one field per line in fixed order —
name, group, subgroup, activation timestamp in jiffies, elapsed seconds,
post-increment read count, current jiffies — each from the configuration
current at generation time; reconfiguring name/group/subgroup between two
sessions (same `load_time`, no reactivation) changes the corresponding fields
of the next report, as the three concrete reconfigurations show. -/
theorem report_renders_current_fields (name1 name2 : String)
    (gr1 gr2 sg1 sg2 rc : Int) (L j1 j2 hz c1 c2 : Nat) :
    ((proc_read ⟨name1, gr1, sg1, rc, L⟩ j1 hz 0 c1 true).report =
      "╔═════════════════════════" ++
  "═════════════════════════╗\n║         Student Information                      ║\n╠═════════════════════════" ++
  "═════════════════════════╣\n  Name:              " ++
      name1 ++
      "\n  Group:             " ++
      gr1.repr ++
      "\n  Subgroup:          " ++
      sg1.repr ++
      "\n  Module loaded at:  " ++
      L.repr ++
      " jiffies\n  Module uptime:     " ++
      (usub64 j1 L / hz).repr ++
      " seconds\n  Read count:        " ++
      (rc + 1).repr ++
      "\n  Current jiffies:   " ++
      j1.repr ++
      "\n╚═════════════════════════" ++
  "═════════════════════════╝\n") ∧
    ((proc_read ⟨name2, gr2, sg2, rc + 1, L⟩ j2 hz 0 c2 true).report =
      "╔═════════════════════════" ++
  "═════════════════════════╗\n║         Student Information                      ║\n╠═════════════════════════" ++
  "═════════════════════════╣\n  Name:              " ++
      name2 ++
      "\n  Group:             " ++
      gr2.repr ++
      "\n  Subgroup:          " ++
      sg2.repr ++
      "\n  Module loaded at:  " ++
      L.repr ++
      " jiffies\n  Module uptime:     " ++
      (usub64 j2 L / hz).repr ++
      " seconds\n  Read count:        " ++
      (rc + 1 + 1).repr ++
      "\n  Current jiffies:   " ++
      j2.repr ++
      "\n╚═════════════════════════" ++
  "═════════════════════════╝\n") ∧
    (proc_read { defaultGlobals with student_name := "Petrov Petr" } 5 100 0 10 true).report ≠
      (proc_read defaultGlobals 5 100 0 10 true).report ∧
    (proc_read { defaultGlobals with group := 7 } 5 100 0 10 true).report ≠
      (proc_read defaultGlobals 5 100 0 10 true).report ∧
    (proc_read { defaultGlobals with subgroup := 1 } 5 100 0 10 true).report ≠
      (proc_read defaultGlobals 5 100 0 10 true).report :=
  ⟨rfl, rfl, by decide, by decide, by decide⟩

/-- C7: the elapsed field of a fresh read at clock `j` is exactly
`(j - load_time) / HZ` — wrap-free subtraction under the stated clock bounds,
with truncating integer division (characterized by the two division bounds) —
and it is non-negative and non-decreasing across two sessions read at clocks
`j1 ≤ j2`. -/
theorem elapsed_truncating_nonneg_monotone (g : Globals) (j1 j2 hz c : Nat)
    (hhz : 0 < hz) (hL : g.load_time ≤ j1) (h12 : j1 ≤ j2)
    (hw : j2 < g.load_time + U64) :
    ((proc_read g j1 hz 0 c true).report =
      renderReport g (g.read_count + 1) (usub64 j1 g.load_time / hz) j1) ∧
    ((proc_read { g with read_count := g.read_count + 1 } j2 hz 0 c true).report =
      renderReport { g with read_count := g.read_count + 1 } (g.read_count + 1 + 1)
        (usub64 j2 g.load_time / hz) j2) ∧
    usub64 j1 g.load_time = j1 - g.load_time ∧
    usub64 j2 g.load_time = j2 - g.load_time ∧
    hz * ((j1 - g.load_time) / hz) ≤ j1 - g.load_time ∧
    j1 - g.load_time < hz * ((j1 - g.load_time) / hz) + hz ∧
    0 ≤ (j1 - g.load_time) / hz ∧
    (j1 - g.load_time) / hz ≤ (j2 - g.load_time) / hz := by
  have e1 : usub64 j1 g.load_time = j1 - g.load_time :=
    usub64_eq_sub j1 g.load_time hL (lt_of_le_of_lt h12 hw)
  have e2 : usub64 j2 g.load_time = j2 - g.load_time :=
    usub64_eq_sub j2 g.load_time (le_trans hL h12) hw
  refine ⟨rfl, rfl, e1, e2, ?_, ?_, Nat.zero_le _, ?_⟩
  · have hd := Nat.div_add_mod (j1 - g.load_time) hz
    have hm := Nat.mod_lt (j1 - g.load_time) hhz
    omega
  · have hd := Nat.div_add_mod (j1 - g.load_time) hz
    have hm := Nat.mod_lt (j1 - g.load_time) hhz
    omega
  · exact Nat.div_le_div_right (Nat.sub_le_sub_right h12 _)

/-- Witness for C7: activation at jiffy 0, sessions at jiffies 12000 and
25000 with HZ = 100 (elapsed 120 s then 250 s). -/
theorem elapsed_truncating_nonneg_monotone_witness :
    ((0 : Nat) < 100 ∧ defaultGlobals.load_time ≤ 12000 ∧ (12000 : Nat) ≤ 25000 ∧
      25000 < defaultGlobals.load_time + U64) ∧
    (((proc_read defaultGlobals 12000 100 0 10 true).report =
      renderReport defaultGlobals (defaultGlobals.read_count + 1)
        (usub64 12000 defaultGlobals.load_time / 100) 12000) ∧
    ((proc_read { defaultGlobals with read_count := defaultGlobals.read_count + 1 } 25000 100 0 10 true).report =
      renderReport { defaultGlobals with read_count := defaultGlobals.read_count + 1 }
        (defaultGlobals.read_count + 1 + 1)
        (usub64 25000 defaultGlobals.load_time / 100) 25000) ∧
    usub64 12000 defaultGlobals.load_time = 12000 - defaultGlobals.load_time ∧
    usub64 25000 defaultGlobals.load_time = 25000 - defaultGlobals.load_time ∧
    100 * ((12000 - defaultGlobals.load_time) / 100) ≤ 12000 - defaultGlobals.load_time ∧
    12000 - defaultGlobals.load_time < 100 * ((12000 - defaultGlobals.load_time) / 100) + 100 ∧
    0 ≤ (12000 - defaultGlobals.load_time) / 100 ∧
    (12000 - defaultGlobals.load_time) / 100 ≤ (25000 - defaultGlobals.load_time) / 100) :=
  ⟨⟨by decide, by decide, by decide, by decide⟩,
   elapsed_truncating_nonneg_monotone defaultGlobals 12000 25000 100 10
     (by decide) (by decide) (by decide) (by decide)⟩

/-- C8: each `proc_read` invocation mutates at most `read_count` and the
caller's cursor — `student_name`, `group`, `subgroup` and `load_time` are
preserved on every path — and `load_time` is written exactly once, by
`proc_module_init` at activation: after initialization at jiffy `jinit`, any
sequence of reads still sees `load_time = jinit`. -/
theorem read_frame_and_activation_time (g : Globals) (j hz ppos c : Nat)
    (cOk : Bool) (g0 : Globals) (jinit : Nat) (createOk : Bool)
    (calls : List CallSpec) :
    ((proc_read g j hz ppos c cOk).g.student_name = g.student_name ∧
     (proc_read g j hz ppos c cOk).g.group = g.group ∧
     (proc_read g j hz ppos c cOk).g.subgroup = g.subgroup ∧
     (proc_read g j hz ppos c cOk).g.load_time = g.load_time) ∧
    (proc_module_init g0 jinit createOk).2.load_time = jinit ∧
    (runReads (proc_module_init g0 jinit createOk).2 calls).load_time = jinit := by
  have hinit : (proc_module_init g0 jinit createOk).2.load_time = jinit := by
    unfold proc_module_init
    cases createOk <;> rfl
  refine ⟨?_, hinit, ?_⟩
  · unfold proc_read
    split
    · exact ⟨rfl, rfl, rfl, rfl⟩
    · cases cOk <;> exact ⟨rfl, rfl, rfl, rfl⟩
  · rw [runReads_load_time, hinit]

/-- Counterexample to C9: the interleaving in which both sessions load the
shared counter before either stores — session 1 load, session 2 load,
session 1 store, session 2 store — completes both non-atomic increments yet
ends with the counter at 1, not at the prior value plus 2: a lost update. -/
theorem concurrent_increment_lost_update :
    (runSched ⟨0, .ready, .ready⟩ [false, true, false, true]).t1 = .done ∧
    (runSched ⟨0, .ready, .ready⟩ [false, true, false, true]).t2 = .done ∧
    (runSched ⟨0, .ready, .ready⟩ [false, true, false, true]).rc = 1 ∧
    (1 : Int) ≠ 0 + 2 := by
  refine ⟨rfl, rfl, rfl, by decide⟩

/-- C9 (amended): when the K fresh sessions run sequentially (one `proc_read`
completing before the next starts), `read_count` ends at its prior value
plus K; the plain non-atomic `read_count++` does not guarantee this under
concurrent interleaving. -/
theorem sequential_fresh_sessions_add_count (g : Globals) (calls : List CallSpec)
    (hfresh : ∀ s ∈ calls, s.ppos = 0) :
    (runReads g calls).read_count = g.read_count + calls.length := by
  induction calls generalizing g with
  | nil => simp [runReads]
  | cons a t ih =>
      have ha : a.ppos = 0 := hfresh a (List.mem_cons_self a t)
      have hrest : ∀ s ∈ t, s.ppos = 0 := fun s hs => hfresh s (List.mem_cons_of_mem a hs)
      have hstep : (proc_read g a.jiffiesNow a.hz a.ppos a.count a.copyOk).g.read_count
          = g.read_count + 1 := by
        rw [ha]
        cases a.copyOk <;> rfl
      simp only [runReads, List.foldl_cons] at *
      rw [ih _ hrest, hstep, List.length_cons]
      push_cast
      omega

/-- Witness for C9 (amended): two sequential fresh sessions — one successful,
one with a failed copy — raise `read_count` from 0 to 2. -/
theorem sequential_fresh_sessions_add_count_witness :
    (∀ s ∈ [CallSpec.mk 0 100 0 10 true, CallSpec.mk 5 100 0 10 false], s.ppos = 0) ∧
    (runReads defaultGlobals [CallSpec.mk 0 100 0 10 true, CallSpec.mk 5 100 0 10 false]).read_count
      = defaultGlobals.read_count +
        ([CallSpec.mk 0 100 0 10 true, CallSpec.mk 5 100 0 10 false] : List CallSpec).length :=
  ⟨by decide,
   sequential_fresh_sessions_add_count defaultGlobals
     [CallSpec.mk 0 100 0 10 true, CallSpec.mk 5 100 0 10 false] (by decide)⟩

/-- C10: when the boundary copy of a fresh read fails, the handler returns
before updating the cursor — the offset stays 0, so the session stays fresh —
no per-read log line is emitted for the failed attempt, and a retry of the
same call re-renders the report and increments `read_count` a second time. -/
theorem copy_fault_session_still_fresh (g : Globals) (j1 j2 hz c1 c2 : Nat) :
    (proc_read g j1 hz 0 c1 false).ppos = 0 ∧
    (proc_read g j1 hz 0 c1 false).logRead = false ∧
    (proc_read g j1 hz 0 c1 false).g.read_count = g.read_count + 1 ∧
    (proc_read (proc_read g j1 hz 0 c1 false).g j2 hz
        (proc_read g j1 hz 0 c1 false).ppos c2 true).g.read_count
      = g.read_count + 1 + 1 ∧
    (proc_read (proc_read g j1 hz 0 c1 false).g j2 hz
        (proc_read g j1 hz 0 c1 false).ppos c2 true).report
      = renderReport { g with read_count := g.read_count + 1 } (g.read_count + 1 + 1)
          (usub64 j2 g.load_time / hz) j2 :=
  ⟨rfl, rfl, rfl, rfl, rfl⟩

end ProcModule
